import Mathlib

/-!
Shallow embedding of the `httpkit` package of DrakelTheDragon/toolbox:
the configuration composition model (`Config`, `ConfigOption`, `Override`,
`Validate`, `setDefaultZeroValues`, the `With...` constructors) and the
sequential prefix of the lifecycle entry point `Serve`.

Go `time.Duration` is an `int64` count of nanoseconds and `Port` is a Go
`int`; both are embedded as `Int` (no arithmetic here can overflow).
Go `error` values are embedded as `Option Err`, with `none` for `nil`.
-/

namespace Httpkit

/-- Go `error` values: `errors.New` makes a leaf, `fmt.Errorf` with `%w`
wraps a cause under a message. -/
inductive Err where
  | new (msg : String)
  | wrap (msg : String) (cause : Err)
deriving DecidableEq, Repr

/-- Embedding of `crypto/tls.Certificate`: opaque parsed key-pair material.
Claims never inspect it; we record only the raw bytes identity. -/
structure Certificate where
  raw : List Nat
deriving DecidableEq, Repr

/-- Embedding of `crypto/x509.CertPool` as the list of PEM blobs appended. -/
structure CertPool where
  certs : List (List Nat)
deriving DecidableEq, Repr

/-- Embedding of `crypto/tls.Config` as built by `WithTLS`. -/
structure TLSConf where
  clientAuth : Nat
  certificates : List Certificate
  clientCAs : CertPool
  minVersion : Nat
  nextProtos : List String
deriving DecidableEq, Repr

/-- One nanosecond, the unit of Go `time.Duration`. -/
def nanosecond : Int := 1

/-- Go `time.Second` in nanoseconds. -/
def second : Int := 1000000000

/-- Go `time.Minute` in nanoseconds. -/
def minute : Int := 60 * second

/-- Constant `_defaultPort` of config.go. -/
def defaultPort : Int := 8080

/-- Constant `_defaultIdleTimeout = 1 * time.Minute`. -/
def defaultIdleTimeout : Int := 1 * minute

/-- Constant `_defaultReadTimeout = 5 * time.Second`. -/
def defaultReadTimeout : Int := 5 * second

/-- Constant `_defaultWriteTimeout = 10 * time.Second`. -/
def defaultWriteTimeout : Int := 10 * second

/-- Constant `_defaultShutdownTimeout = 10 * time.Second`. -/
def defaultShutdownTimeout : Int := 10 * second

/-- The `Config` struct. Field defaults are the Go zero values, so `{}`
is the zero `Config` that `Serve` starts from. `TLS` is the `*tls.Config`
pointer (`none` = nil) and `tlsErr` the unexported deferred error. -/
@[ext]
structure Config where
  Host : String := ""
  Port : Int := 0
  IdleTimeout : Int := 0
  ReadTimeout : Int := 0
  WriteTimeout : Int := 0
  ShutdownTimeout : Int := 0
  TLS : Option TLSConf := none
  tlsErr : Option Err := none
deriving DecidableEq, Repr

/-- Function `DefaultConfig` of config.go. -/
def DefaultConfig : Config :=
  { Port := defaultPort
    IdleTimeout := defaultIdleTimeout
    ReadTimeout := defaultReadTimeout
    WriteTimeout := defaultWriteTimeout
    ShutdownTimeout := defaultShutdownTimeout }

/-- Embedding of `net.JoinHostPort`: brackets the host when it contains a
colon (literal IPv6 address), otherwise plain `host:port`. -/
def joinHostPort (host port : String) : String :=
  if host.contains ':' then "[" ++ host ++ "]:" ++ port
  else host ++ ":" ++ port

/-- Method `Config.Addr`: `net.JoinHostPort(c.Host, strconv.Itoa(c.Port))`. -/
def Config.Addr (c : Config) : String :=
  joinHostPort c.Host (toString c.Port)

/-- Method `Config.Override` of config.go: a value receiver on the patch
`other`, pointer receiver on the target; each of the six public fields of
`other` is copied into the target exactly when it is non-zero. -/
def Config.Override (c : Config) (other : Config) : Config :=
  let c := if other.Host ≠ "" then { c with Host := other.Host } else c
  let c := if other.Port ≠ 0 then { c with Port := other.Port } else c
  let c := if other.IdleTimeout ≠ 0 then { c with IdleTimeout := other.IdleTimeout } else c
  let c := if other.ReadTimeout ≠ 0 then { c with ReadTimeout := other.ReadTimeout } else c
  let c := if other.WriteTimeout ≠ 0 then { c with WriteTimeout := other.WriteTimeout } else c
  let c := if other.ShutdownTimeout ≠ 0 then { c with ShutdownTimeout := other.ShutdownTimeout } else c
  c

/-- Method `Config.setDefaultZeroValues` of config.go: every numeric or
duration field that is `<= 0` is replaced by its built-in default. -/
def Config.setDefaultZeroValues (c : Config) : Config :=
  let c := if c.Port ≤ 0 then { c with Port := defaultPort } else c
  let c := if c.IdleTimeout ≤ 0 then { c with IdleTimeout := defaultIdleTimeout } else c
  let c := if c.ReadTimeout ≤ 0 then { c with ReadTimeout := defaultReadTimeout } else c
  let c := if c.WriteTimeout ≤ 0 then { c with WriteTimeout := defaultWriteTimeout } else c
  let c := if c.ShutdownTimeout ≤ 0 then { c with ShutdownTimeout := defaultShutdownTimeout } else c
  c

/-- Method `Config.Validate` of config.go. It mutates the receiver through
`setDefaultZeroValues` and returns an error, so the embedding returns the
updated configuration paired with the `Option Err` result. The checks are
in source order: port, idle, read, write, shutdown, then the
transport-security condition `c.TLS != nil && c.tlsErr != nil`. -/
def Config.Validate (c : Config) : Config × Option Err :=
  let c := c.setDefaultZeroValues
  if c.Port ≤ 0 then (c, some (Err.new "port must be greater than 0"))
  else if c.IdleTimeout ≤ 0 then (c, some (Err.new "idle timeout must be greater than 0"))
  else if c.ReadTimeout ≤ 0 then (c, some (Err.new "read timeout must be greater than 0"))
  else if c.WriteTimeout ≤ 0 then (c, some (Err.new "write timeout must be greater than 0"))
  else if c.ShutdownTimeout ≤ 0 then (c, some (Err.new "shutdown timeout must be greater than 0"))
  else
    match c.TLS, c.tlsErr with
    | some _, some e => (c, some (Err.wrap "tls must be configured correctly if provided" e))
    | _, _ => (c, none)

/-- The `ConfigOption` interface together with its eight implementing
structs of config.go, as one inductive: each constructor is one struct. -/
inductive ConfigOption where
  | hostOption (value : String)
  | portOption (value : Int)
  | idleTimeoutOption (value : Int)
  | readTimeoutOption (value : Int)
  | writeTimeoutOption (value : Int)
  | shutdownTimeoutOption (value : Int)
  | tlsOption (value : Option TLSConf) (err : Option Err)
  | configOption (value : Config)
  | configOptions (value : List ConfigOption)

mutual

/-- Dynamic dispatch of `applyToConfig` over the option structs; the
composite case `configOptions` loops over its list in order. -/
def applyToConfig : ConfigOption → Config → Config
  | .hostOption v, c => { c with Host := v }
  | .portOption v, c => { c with Port := v }
  | .idleTimeoutOption v, c => { c with IdleTimeout := v }
  | .readTimeoutOption v, c => { c with ReadTimeout := v }
  | .writeTimeoutOption v, c => { c with WriteTimeout := v }
  | .shutdownTimeoutOption v, c => { c with ShutdownTimeout := v }
  | .tlsOption v e, c => { c with TLS := v, tlsErr := e }
  | .configOption v, c => Config.Override c v
  | .configOptions l, c => applyToConfigList l c

/-- The `for _, opt := range o.value` loop of `configOptions.applyToConfig`,
also the option-application loop at the top of `Serve`. -/
def applyToConfigList : List ConfigOption → Config → Config
  | [], c => c
  | o :: os, c => applyToConfigList os (applyToConfig o c)

end

/-- Constructor `WithHost`. -/
def WithHost (v : String) : ConfigOption := .hostOption v

/-- Constructor `WithPort`. -/
def WithPort (v : Int) : ConfigOption := .portOption v

/-- Constructor `WithIdleTimeout`. -/
def WithIdleTimeout (v : Int) : ConfigOption := .idleTimeoutOption v

/-- Constructor `WithReadTimeout`. -/
def WithReadTimeout (v : Int) : ConfigOption := .readTimeoutOption v

/-- Constructor `WithWriteTimeout`. -/
def WithWriteTimeout (v : Int) : ConfigOption := .writeTimeoutOption v

/-- Constructor `WithShutdownTimeout`. -/
def WithShutdownTimeout (v : Int) : ConfigOption := .shutdownTimeoutOption v

/-- Constructor `WithConfig`. -/
def WithConfig (v : Config) : ConfigOption := .configOption v

/-- Constructor `WithConfigOptions` (variadic, embedded as a list). -/
def WithConfigOptions (v : List ConfigOption) : ConfigOption := .configOptions v

/-- Outcomes of the three I/O steps `WithTLS` performs on credential
material: `tls.LoadX509KeyPair(ceFile, keyFile)`, `os.ReadFile(caFile)`,
and `x509.CertPool.AppendCertsFromPEM` on the bytes read. -/
structure CredentialMaterial where
  loadKeyPair : Except Err Certificate
  readCAFile : Except Err (List Nat)
  appendCertsFromPEM : List Nat → Bool

/-- Go constant `tls.RequireAndVerifyClientCert`. -/
def requireAndVerifyClientCert : Nat := 4

/-- Go constant `tls.VersionTLS12`. -/
def versionTLS12 : Nat := 771

/-- Constructor `WithTLS`, with the file-system and parsing outcomes
abstracted into `CredentialMaterial`: on any failed step it returns a
`tlsOption` carrying only the error (its `value` pointer stays nil);
when everything succeeds it returns a `tlsOption` carrying the built
`tls.Config` and a nil error. -/
def WithTLS (cred : CredentialMaterial) : ConfigOption :=
  match cred.loadKeyPair with
  | .error e => .tlsOption none (some e)
  | .ok ce =>
    match cred.readCAFile with
    | .error e => .tlsOption none (some e)
    | .ok ca =>
      if cred.appendCertsFromPEM ca then
        .tlsOption
          (some { clientAuth := requireAndVerifyClientCert
                  certificates := [ce]
                  clientCAs := { certs := [ca] }
                  minVersion := versionTLS12
                  nextProtos := ["h2", "http/1.1"] })
          none
      else
        .tlsOption none (some (Err.new "unable to append certs from PEM"))

/-- Observable resource-acquisition steps of `Serve` in httpkit.go, in
program order: installing the signal-interception context
(`withErrGroupNotifyContext`), and launching each errgroup task (the
serve task, which binds the listener, and the shutdown watcher). -/
inductive ServeEvent where
  | signalInterceptInstalled
  | taskLaunched (name : String)
deriving DecidableEq, Repr

/-- The `http.Server` value `Serve` builds from the validated
configuration. -/
structure HTTPServer where
  addr : String
  idleTimeout : Int
  readTimeout : Int
  writeTimeout : Int
deriving DecidableEq, Repr

/-- The sequential prefix of `Serve` in httpkit.go: fold the options over
the zero `Config`, validate, and on a validation error return it at once;
otherwise build the `http.Server`, install signal interception and launch
the two tasks. The trace of `ServeEvent`s records, in order, every
resource-acquisition step taken before `Serve` blocks in `eg.Wait()`;
the concurrent part after launch is outside this embedding. -/
def Serve (opts : List ConfigOption) : List ServeEvent × Option HTTPServer × Option Err :=
  let cfg := applyToConfigList opts {}
  let vr := cfg.Validate
  match vr.2 with
  | some e => ([], none, some e)
  | none =>
    let cfg := vr.1
    let srv : HTTPServer :=
      { addr := cfg.Addr
        idleTimeout := cfg.IdleTimeout
        readTimeout := cfg.ReadTimeout
        writeTimeout := cfg.WriteTimeout }
    ([ServeEvent.signalInterceptInstalled,
      ServeEvent.taskLaunched "serve",
      ServeEvent.taskLaunched "shutdownWatcher"], some srv, none)

/-! Claim theorems. -/

/-- Concrete failed credential load: `tls.LoadX509KeyPair` fails because the
certificate file is unreadable, as in the unreadable-credential scenario. -/
def credFail : CredentialMaterial :=
  { loadKeyPair := .error (Err.new "open cert.pem: no such file or directory")
    readCAFile := .error (Err.new "open ca.pem: no such file or directory")
    appendCertsFromPEM := fun _ => false }

/-- C1: evaluation at the failing input. `WithTLS` over unreadable
credential files returns a `tlsOption` whose deferred error is set but
whose `TLS` pointer is nil; after applying it to the zero configuration,
`Validate` returns nil because its transport-security condition
`c.TLS != nil && c.tlsErr != nil` can never fire on such an option — the
deferred construction error is silently dropped, contradicting the claim
(and the intent shown by the dead check and its error message). -/
theorem failed_tls_option_not_surfaced :
    (applyToConfig (WithTLS credFail) {}).tlsErr
        = some (Err.new "open cert.pem: no such file or directory") ∧
    (applyToConfig (WithTLS credFail) {}).TLS = none ∧
    (Config.Validate (applyToConfig (WithTLS credFail) {})).2 = none := by
  refine ⟨?_, ?_, ?_⟩ <;> decide

/-- C2: evaluation at the failing input. On a configuration with
`Port = -1`, `Validate` returns nil — `setDefaultZeroValues` replaces any
`Port <= 0` (not just the zero value) with 8080 before the port check, so
the port-invalid branch is unreachable and the claim fails on the code. -/
theorem validate_port_negative_returns_nil :
    (Config.Validate { Port := -1 }).2 = none ∧
    (Config.Validate { Port := -1 }).1.Port = 8080 := by
  refine ⟨?_, ?_⟩ <;> decide

/-- C3: on the all-zero configuration, `Validate` succeeds and the
resulting configuration is exactly the built-in defaults: port 8080,
idle timeout 60s, read timeout 5s, write timeout 10s, shutdown timeout
10s, host empty (and no transport-security context). -/
theorem validate_zero_config_yields_defaults :
    Config.Validate {} = (DefaultConfig, none) ∧
    DefaultConfig =
      { Host := ""
        Port := 8080
        IdleTimeout := 60 * 1000000000
        ReadTimeout := 5 * 1000000000
        WriteTimeout := 10 * 1000000000
        ShutdownTimeout := 10 * 1000000000
        TLS := none
        tlsErr := none } := by
  refine ⟨?_, ?_⟩ <;> decide

/-- Helper: the configuration returned by `Validate` is the receiver after
`setDefaultZeroValues`, in every branch. -/
theorem validate_fst (c : Config) :
    (Config.Validate c).1 = c.setDefaultZeroValues := by
  unfold Config.Validate
  dsimp only
  split_ifs <;> (try rfl) <;> (split <;> rfl)

/-- Helper: after `setDefaultZeroValues`, the port and all four duration
fields are strictly positive. -/
theorem setDefaultZeroValues_pos (c : Config) :
    0 < c.setDefaultZeroValues.Port ∧
    0 < c.setDefaultZeroValues.IdleTimeout ∧
    0 < c.setDefaultZeroValues.ReadTimeout ∧
    0 < c.setDefaultZeroValues.WriteTimeout ∧
    0 < c.setDefaultZeroValues.ShutdownTimeout := by
  by_cases h1 : c.Port ≤ 0 <;> by_cases h2 : c.IdleTimeout ≤ 0 <;>
    by_cases h3 : c.ReadTimeout ≤ 0 <;> by_cases h4 : c.WriteTimeout ≤ 0 <;>
    by_cases h5 : c.ShutdownTimeout ≤ 0 <;>
    simp only [Config.setDefaultZeroValues, h1, h2, h3, h4, h5, if_true,
      if_false, defaultPort, defaultIdleTimeout, defaultReadTimeout,
      defaultWriteTimeout, defaultShutdownTimeout, minute, second] <;>
    refine ⟨by omega, by omega, by omega, by omega, by omega⟩

/-- C4: whenever `Validate` returns nil, the resulting configuration has a
strictly positive port and strictly positive idle, read, write and
shutdown timeouts. -/
theorem validate_ok_fields_positive (c : Config)
    (h : (Config.Validate c).2 = none) :
    0 < (Config.Validate c).1.Port ∧
    0 < (Config.Validate c).1.IdleTimeout ∧
    0 < (Config.Validate c).1.ReadTimeout ∧
    0 < (Config.Validate c).1.WriteTimeout ∧
    0 < (Config.Validate c).1.ShutdownTimeout := by
  rw [validate_fst]
  exact setDefaultZeroValues_pos c

/-- Witness for C4 at the zero configuration. -/
theorem validate_ok_fields_positive_witness :
    (Config.Validate {}).2 = none ∧
    (0 < (Config.Validate ({} : Config)).1.Port ∧
     0 < (Config.Validate ({} : Config)).1.IdleTimeout ∧
     0 < (Config.Validate ({} : Config)).1.ReadTimeout ∧
     0 < (Config.Validate ({} : Config)).1.WriteTimeout ∧
     0 < (Config.Validate ({} : Config)).1.ShutdownTimeout) :=
  ⟨by decide, validate_ok_fields_positive {} (by decide)⟩

/-- C5: `Override` copies each patch field exactly when it is non-zero
(non-empty string, non-zero integer, non-zero duration) and leaves the
target field unchanged otherwise, and `Override` is idempotent. -/
theorem override_fields_and_idempotent (c p : Config) :
    (Config.Override c p).Host = (if p.Host ≠ "" then p.Host else c.Host) ∧
    (Config.Override c p).Port = (if p.Port ≠ 0 then p.Port else c.Port) ∧
    (Config.Override c p).IdleTimeout
        = (if p.IdleTimeout ≠ 0 then p.IdleTimeout else c.IdleTimeout) ∧
    (Config.Override c p).ReadTimeout
        = (if p.ReadTimeout ≠ 0 then p.ReadTimeout else c.ReadTimeout) ∧
    (Config.Override c p).WriteTimeout
        = (if p.WriteTimeout ≠ 0 then p.WriteTimeout else c.WriteTimeout) ∧
    (Config.Override c p).ShutdownTimeout
        = (if p.ShutdownTimeout ≠ 0 then p.ShutdownTimeout else c.ShutdownTimeout) ∧
    Config.Override (Config.Override c p) p = Config.Override c p := by
  unfold Config.Override
  split_ifs <;> refine ⟨rfl, rfl, rfl, rfl, rfl, rfl, rfl⟩

/-- C6: applying the composite option built from a list of options equals
folding the application of each contained option over the configuration
in the order supplied (nested composites recurse through `applyToConfig`
itself, depth-first, preserving order). -/
theorem configOptions_flattening (l : List ConfigOption) (c : Config) :
    applyToConfig (ConfigOption.configOptions l) c
      = l.foldl (fun cfg o => applyToConfig o cfg) c := by
  rw [applyToConfig]
  induction l generalizing c with
  | nil => rfl
  | cons o os ih =>
      rw [applyToConfigList, List.foldl]
      exact ih (applyToConfig o c)

/-- C7: every scalar setter option overwrites its field with the supplied
value unconditionally — also when the value is the zero value, unlike
`Override`. -/
theorem scalar_setters_overwrite_unconditionally
    (c : Config) (s : String) (n da db dc dd : Int) :
    (applyToConfig (WithHost s) c).Host = s ∧
    (applyToConfig (WithPort n) c).Port = n ∧
    (applyToConfig (WithIdleTimeout da) c).IdleTimeout = da ∧
    (applyToConfig (WithReadTimeout db) c).ReadTimeout = db ∧
    (applyToConfig (WithWriteTimeout dc) c).WriteTimeout = dc ∧
    (applyToConfig (WithShutdownTimeout dd) c).ShutdownTimeout = dd := by
  refine ⟨?_, ?_, ?_, ?_, ?_, ?_⟩ <;>
    simp [applyToConfig, WithHost, WithPort, WithIdleTimeout,
      WithReadTimeout, WithWriteTimeout, WithShutdownTimeout]

/-- C8: evaluation at a failing input with several violated invariants
(`Port = -1` and `IdleTimeout = -5`). The claim says the port error is
returned first; the code returns nil, because `setDefaultZeroValues`
replaces every non-positive field with its default before any check, so
no invariant-violation error is ever reported. -/
theorem validate_multiple_violations_returns_nil :
    (Config.Validate { Port := -1, IdleTimeout := -5 }).2 = none ∧
    (Config.Validate { Port := -1, IdleTimeout := -5 }).1.Port = 8080 ∧
    (Config.Validate { Port := -1, IdleTimeout := -5 }).1.IdleTimeout
      = 60 * 1000000000 := by
  refine ⟨?_, ?_, ?_⟩ <;> decide

/-- C9: when the configuration composed from the option list fails
validation, `Serve` returns that validation error with an empty event
trace — no signal interception is installed, no task (hence no listener
bind) is launched — and no server value is built. -/
theorem serve_validation_failure_acquires_nothing
    (opts : List ConfigOption) (e : Err)
    (h : (Config.Validate (applyToConfigList opts {})).2 = some e) :
    Serve opts = ([], none, some e) := by
  unfold Serve
  dsimp only
  rw [h]

/-- A transport-security option value carrying both a context and a
deferred error: the only kind of `Config` state on which `Validate`
fails, used to witness C9. -/
def conflictedTLSOption : ConfigOption :=
  ConfigOption.tlsOption
    (some { clientAuth := 0, certificates := [], clientCAs := { certs := [] },
            minVersion := 0, nextProtos := [] })
    (some (Err.new "bad credential"))

/-- Witness for C9 at a concrete option list failing validation. -/
theorem serve_validation_failure_acquires_nothing_witness :
    (Config.Validate (applyToConfigList [conflictedTLSOption] {})).2
      = some (Err.wrap "tls must be configured correctly if provided"
          (Err.new "bad credential")) ∧
    Serve [conflictedTLSOption]
      = ([], none, some (Err.wrap "tls must be configured correctly if provided"
          (Err.new "bad credential"))) :=
  ⟨by decide,
   serve_validation_failure_acquires_nothing [conflictedTLSOption] _ (by decide)⟩

/-- C10: `Override` never touches the transport-security fields of the
target: the `TLS` context and the deferred `tlsErr` are unchanged
whatever the patch contains. -/
theorem override_preserves_transport_security (c p : Config) :
    (Config.Override c p).TLS = c.TLS ∧
    (Config.Override c p).tlsErr = c.tlsErr := by
  unfold Config.Override
  split_ifs <;> exact ⟨rfl, rfl⟩

end Httpkit
